import Mathlib

/-!
Shallow embedding of the room-matching and settlement core of the
`casino_bot` repository (files `multiplayer_games.py`, `room_manager.py`,
`database.py` and the game handlers of `main.py`).

Modelling conventions:
* Python `dict`s become association lists (`List (κ × ν)`); insertion of a
  fresh key appends, assignment to a present key replaces in place,
  `del` removes the key — matching `dict` semantics on duplicate-free lists.
* Python `float` amounts become `ℚ`; the settlement formulas are the exact
  arithmetic expressions of the source.
* Randomness (`random.randint`, `random.choice`) is injected as explicit
  parameters of the `play` functions.
* `async` handlers are modelled as state transformers
  `BotState → BotState × List Eff`, where the `Eff` trace records, in
  program order, the balance-store calls and room operations the handler
  performs.  Message sending, timestamps and per-user game-history lists
  are presentation-only and are not part of the state modelled here.
-/

namespace Casino

section AssocMap

variable {κ : Type} {ν : Type} [DecidableEq κ]

/-- First-match lookup in an association list (Python `dict.get`). -/
def alookup : List (κ × ν) → κ → Option ν
  | [], _ => none
  | (k, v) :: rest, key => if k = key then some v else alookup rest key

/-- Assignment `d[key] = v`: replaces the first binding of `key`,
appends a new binding when `key` is absent. -/
def aset : List (κ × ν) → κ → ν → List (κ × ν)
  | [], key, v => [(key, v)]
  | (k, w) :: rest, key, v =>
      if k = key then (key, v) :: rest else (k, w) :: aset rest key v

/-- Deletion `del d[key]`: removes every binding of `key`. -/
def aremove (l : List (κ × ν)) (key : κ) : List (κ × ν) :=
  l.filter (fun p => decide (p.1 ≠ key))

theorem alookup_aset_self (l : List (κ × ν)) (key : κ) (v : ν) :
    alookup (aset l key v) key = some v := by
  induction l with
  | nil => simp [aset, alookup]
  | cons hd tl ih =>
      obtain ⟨k, w⟩ := hd
      by_cases hk : k = key
      · simp [aset, alookup, hk]
      · simp [aset, alookup, hk, ih]

theorem alookup_aset_ne (l : List (κ × ν)) (key key' : κ) (v : ν)
    (h : key' ≠ key) : alookup (aset l key v) key' = alookup l key' := by
  induction l with
  | nil => simp [aset, alookup, h.symm]
  | cons hd tl ih =>
      obtain ⟨k, w⟩ := hd
      by_cases hk : k = key
      · subst hk
        simp [aset, alookup, h.symm]
      · simp [aset, alookup, hk, ih]

theorem aset_of_absent (l : List (κ × ν)) (key : κ) (v : ν)
    (h : alookup l key = none) : aset l key v = l ++ [(key, v)] := by
  induction l with
  | nil => simp [aset]
  | cons hd tl ih =>
      obtain ⟨k, w⟩ := hd
      by_cases hk : k = key
      · simp [alookup, hk] at h
      · simp [alookup, hk] at h
        simp [aset, hk, ih h]

theorem aset_length_of_present (l : List (κ × ν)) (key : κ) (v w : ν)
    (h : alookup l key = some w) : (aset l key v).length = l.length := by
  induction l with
  | nil => simp [alookup] at h
  | cons hd tl ih =>
      obtain ⟨k, u⟩ := hd
      by_cases hk : k = key
      · simp [aset, hk]
      · simp [alookup, hk] at h
        simp [aset, hk, ih h]

theorem aremove_cons (k : κ) (w : ν) (tl : List (κ × ν)) (key : κ) :
    aremove ((k, w) :: tl) key
      = if k = key then aremove tl key else (k, w) :: aremove tl key := by
  by_cases hk : k = key <;> simp [aremove, List.filter_cons, hk]

theorem alookup_aremove_self (l : List (κ × ν)) (key : κ) :
    alookup (aremove l key) key = none := by
  induction l with
  | nil => simp [aremove, alookup]
  | cons hd tl ih =>
      obtain ⟨k, w⟩ := hd
      rw [aremove_cons]
      by_cases hk : k = key
      · simpa [hk] using ih
      · simp [alookup, hk, ih]

theorem alookup_aremove_ne (l : List (κ × ν)) (key key' : κ)
    (h : key' ≠ key) : alookup (aremove l key) key' = alookup l key' := by
  induction l with
  | nil => simp [aremove, alookup]
  | cons hd tl ih =>
      obtain ⟨k, w⟩ := hd
      rw [aremove_cons]
      by_cases hk : k = key
      · subst hk
        simp [alookup, h.symm, ih]
      · simp [alookup, hk, ih]

theorem countP_eq_zero_of_alookup_none (l : List (κ × ν)) (key : κ)
    (h : alookup l key = none) :
    l.countP (fun p => decide (p.1 = key)) = 0 := by
  induction l with
  | nil => simp
  | cons hd tl ih =>
      obtain ⟨k, w⟩ := hd
      by_cases hk : k = key
      · simp [alookup, hk] at h
      · simp [alookup, hk] at h
        simp [List.countP_cons, hk, ih h]

end AssocMap

/-! ## Data model: `multiplayer_games.py` -/

/-- `MultiplayerGame.status`: the string field `"waiting" | "playing" | "finished"`. -/
inductive Status
  | waiting
  | playing
  | finished
deriving DecidableEq, Repr

/-- The two supported game types (`"dice"` / `"coinflip"`). -/
inductive GameType
  | dice
  | coinflip
deriving DecidableEq, Repr

/-- A stored per-player result: a die value for dice, a coin side for coinflip. -/
inductive ResVal
  | num (n : Nat)
  | side (s : String)
deriving DecidableEq, Repr

/-- The mutable fields of `MultiplayerGame` (plus the `CoinflipGame`-only
`creator_choice`, which stays `none` for dice rooms).  The `created_at`
timestamp is presentation-only and not modelled. -/
structure Room where
  room_id : String
  creator_id : Int
  bet : ℚ
  game_type : GameType
  opponent_id : Option Int := none
  status : Status := .waiting
  creator_result : Option ResVal := none
  opponent_result : Option ResVal := none
  winner_id : Option Int := none
  creator_choice : Option String := none
deriving DecidableEq, Repr

/-- `MultiplayerGame.join`: succeeds from `waiting` only; note the source
performs no self-join check at this level. -/
def Room.join (r : Room) (opponent_id : Int) : Bool × Room :=
  if r.status ≠ .waiting then (false, r)
  else (true, { r with opponent_id := some opponent_id, status := .playing })

/-- The result dict returned by `DiceGame.play` on success. -/
structure DiceResult where
  creator_result : Nat
  opponent_result : Nat
  winner_id : Option Int
  is_draw : Bool
deriving DecidableEq, Repr

/-- `DiceGame.play`, with the two `random.randint(1, 6)` draws injected as
`c` (creator) and `o` (opponent). -/
def DiceGame.play (r : Room) (c o : Nat) : Except String DiceResult × Room :=
  if r.status ≠ .playing then (.error "Game is not ready", r)
  else
    let winner : Option Int :=
      if c > o then some r.creator_id
      else if o > c then r.opponent_id
      else none
    ((.ok { creator_result := c, opponent_result := o,
            winner_id := winner, is_draw := winner.isNone }),
     { r with creator_result := some (.num c), opponent_result := some (.num o),
              winner_id := winner, status := .finished })

/-- Python `str.lower()`, character-wise (ASCII case mapping suffices for
the coin-side strings this code passes). -/
def str_lower (s : String) : String := ⟨s.data.map Char.toLower⟩

/-- `CoinflipGame.set_creator_choice`: stores `choice.lower()`, with no
status, caller or already-set guard at this level. -/
def CoinflipGame.set_creator_choice (r : Room) (choice : String) : Room :=
  { r with creator_choice := some (str_lower choice) }

/-- `CoinflipGame.get_opponent_choice`. -/
def CoinflipGame.get_opponent_choice (r : Room) : String :=
  if r.creator_choice = some "heads" then "tails" else "heads"

/-- The result dict returned by `CoinflipGame.play` on success. -/
structure CoinResult where
  result : String
  creator_choice : String
  opponent_choice : String
  winner_id : Option Int
  is_draw : Bool
deriving DecidableEq, Repr

/-- `CoinflipGame.play`, with the `random.choice(["heads", "tails"])` flip
injected as `flip`.  The guard `if not self.creator_choice` is the Python
falsiness test: `None` or the empty string. -/
def CoinflipGame.play (r : Room) (flip : String) : Except String CoinResult × Room :=
  if r.status ≠ .playing then (.error "Game is not ready", r)
  else if r.creator_choice = none ∨ r.creator_choice = some "" then
    (.error "Creator must make a choice", r)
  else
    let creator_choice := r.creator_choice.getD ""
    let opponent_choice := CoinflipGame.get_opponent_choice r
    let winner : Option Int :=
      if creator_choice = flip then some r.creator_id
      else if opponent_choice = flip then r.opponent_id
      else none
    ((.ok { result := flip, creator_choice := creator_choice,
            opponent_choice := opponent_choice,
            winner_id := winner, is_draw := winner.isNone }),
     { r with creator_result := some (.side flip), opponent_result := some (.side flip),
              winner_id := winner, status := .finished })

/-! ## `room_manager.py` -/

/-- `RoomManager`: the in-memory room directory (file persistence of
`save_rooms`/`load_rooms` is out of scope). -/
structure RoomManager where
  active_rooms : List (String × Room) := []
  room_counter : Nat := 1000
deriving DecidableEq, Repr

/-- `RoomManager.generate_room_id` + `create_room`: increments the counter,
builds the room for the (closed) game-type enum, stores it. -/
def RoomManager.create_room (m : RoomManager) (creator_id : Int)
    (game_type : GameType) (bet : ℚ) : Room × RoomManager :=
  let counter := m.room_counter + 1
  let rid := "ROOM" ++ toString counter
  let room : Room := { room_id := rid, creator_id := creator_id,
                       bet := bet, game_type := game_type }
  (room, { active_rooms := aset m.active_rooms rid room, room_counter := counter })

/-- `RoomManager.get_room`. -/
def RoomManager.get_room (m : RoomManager) (room_id : String) : Option Room :=
  alookup m.active_rooms room_id

/-- `RoomManager.join_room`: missing room or self-join fail fast, otherwise
delegates to `Room.join` (the room object is mutated in place, modelled by
re-storing the updated room). -/
def RoomManager.join_room (m : RoomManager) (room_id : String)
    (opponent_id : Int) : Bool × RoomManager :=
  match RoomManager.get_room m room_id with
  | none => (false, m)
  | some room =>
      if room.creator_id = opponent_id then (false, m)
      else
        let res := Room.join room opponent_id
        (res.1, { m with active_rooms := aset m.active_rooms room_id res.2 })

/-- `RoomManager.delete_room`. -/
def RoomManager.delete_room (m : RoomManager) (room_id : String) :
    Bool × RoomManager :=
  match RoomManager.get_room m room_id with
  | none => (false, m)
  | some _ => (true, { m with active_rooms := aremove m.active_rooms room_id })

/-! ## `database.py` (balance store) -/

/-- The balance store: user id ↦ balance.  Of the per-user record only the
`balance` field participates in the claims; history/statistics fields and
timestamps are presentation-only. -/
abbrev Db := List (Int × ℚ)

/-- `Database.update_balance`: absent user ⇒ returns `0.0` and stores
nothing; present user ⇒ unconditionally stores and returns
`balance + amount` (no insufficient-funds check). -/
def Database.update_balance (db : Db) (user_id : Int) (amount : ℚ) : ℚ × Db :=
  match alookup db user_id with
  | none => (0, db)
  | some b => (b + amount, aset db user_id (b + amount))

/-- `Database.get_balance`: `user["balance"] if user else 0.0`. -/
def Database.get_balance (db : Db) (user_id : Int) : ℚ :=
  (alookup db user_id).getD 0

/-- `db.update_balance` as called from `main.py`, where the user argument can
be `room.opponent_id` / `result["winner_id"]` (a possibly-`None` value whose
`str()` is never a key of the user dict, so the call is a no-op then). -/
def apply_credit (db : Db) (user : Option Int) (amount : ℚ) : ℚ × Db :=
  match user with
  | none => (0, db)
  | some u => Database.update_balance db u amount

/-! ## `main.py`: handler state, effect traces and the game handlers -/

/-- One observable call a handler makes into the balance store or the room
registry, recorded in program order. -/
inductive Eff
  | getBalance (user : Int)
  | updateBalance (user : Option Int) (amount : ℚ)
  | addHistory (user : Option Int) (game : String) (bet win : ℚ) (outcome : String)
  | createRoom (creator : Int) (game_type : GameType) (bet : ℚ) (room_id : String)
  | joinRoom (room_id : String) (opponent : Int)
  | deleteRoom (room_id : String)
deriving DecidableEq, Repr

/-- A rematch request as stored in the module-level `rematch_requests` dict. -/
structure RematchReq where
  requester_id : Int
  opponent_id : Int
  game_type : GameType
  bet : ℚ
deriving DecidableEq, Repr

/-- The `pair_key` string `f"{min(p1,p2)}_{max(p1,p2)}_{game_type}_{bet}"`,
modelled structurally (the string encoding is injective in its four
components). -/
structure PairKey where
  lo : Int
  hi : Int
  game_type : GameType
  bet : ℚ
deriving DecidableEq, Repr

/-- The module-level mutable state of `main.py` that the game handlers touch:
the user database, the `room_manager` and the `rematch_requests` dict. -/
structure BotState where
  db : Db
  rooms : RoomManager
  rematch_requests : List (PairKey × RematchReq)
deriving DecidableEq, Repr

/-- The `updateBalance` events of a trace, i.e. the balance credits/debits a
handler actually applied, in order. -/
def balance_updates : List Eff → List (Option Int × ℚ)
  | [] => []
  | .updateBalance u a :: rest => (u, a) :: balance_updates rest
  | _ :: rest => balance_updates rest

/-- `true` iff every room creation/join event in the trace is preceded by
some balance debit/credit event — the order the spec prescribes for the
reserve-then-create sequence. -/
def debit_precedes_transitions : List Eff → Bool → Bool
  | [], _ => true
  | .updateBalance _ _ :: rest, _ => debit_precedes_transitions rest true
  | .createRoom _ _ _ _ :: rest, seen => seen && debit_precedes_transitions rest seen
  | .joinRoom _ _ :: rest, seen => seen && debit_precedes_transitions rest seen
  | _ :: rest, seen => debit_precedes_transitions rest seen

/-- Handler `create_room_with_bet` (the `GameStates.entering_bet` message
handler), up to the point where it starts waiting for an opponent.  The bet
amount arrives already parsed (`float(message.text)`); the game type comes
from the FSM data.  Note the source order: bounds check, balance check,
`room_manager.create_room`, then the stake debit. -/
def create_room_with_bet (s : BotState) (user : Int) (game_type : GameType)
    (bet minBet maxBet : ℚ) : BotState × List Eff :=
  if bet < minBet ∨ maxBet < bet then (s, [])
  else
    let balance := Database.get_balance s.db user
    if balance < bet then (s, [.getBalance user])
    else
      let res := RoomManager.create_room s.rooms user game_type bet
      let deb := Database.update_balance s.db user (-bet)
      ({ s with rooms := res.2, db := deb.2 },
       [.getBalance user,
        .createRoom user game_type bet res.1.room_id,
        .updateBalance (some user) (-bet)])

/-- Handler `join_room` (callback `join_{room_id}`), up to the point where it
hands the now-`playing` room to `start_multiplayer_game`.  Source order:
lookup, status check, balance check, `room_manager.join_room`, then the
stake debit. -/
def join_room_handler (s : BotState) (user : Int) (room_id : String) :
    BotState × List Eff :=
  match RoomManager.get_room s.rooms room_id with
  | none => (s, [])
  | some room =>
      if room.status ≠ .waiting then (s, [])
      else
        let balance := Database.get_balance s.db user
        if balance < room.bet then (s, [.getBalance user])
        else
          let res := RoomManager.join_room s.rooms room_id user
          if res.1 then
            let deb := Database.update_balance s.db user (-room.bet)
            ({ s with rooms := res.2, db := deb.2 },
             [.getBalance user,
              .joinRoom room_id user,
              .updateBalance (some user) (-room.bet)])
          else ({ s with rooms := res.2 }, [.getBalance user])

/-- Settlement part of `show_dice_result`: draw ⇒ both stakes refunded;
otherwise the winner is credited `bet*2 - bet*2*(HOUSE_FEE/100)`; history is
recorded and the room deleted. -/
def show_dice_result (s : BotState) (fee : ℚ) (room : Room)
    (res : DiceResult) : BotState × List Eff :=
  if res.is_draw then
    let db1 := (apply_credit s.db (some room.creator_id) room.bet).2
    let db2 := (apply_credit db1 room.opponent_id room.bet).2
    let del := RoomManager.delete_room s.rooms room.room_id
    ({ s with db := db2, rooms := del.2 },
     [.updateBalance (some room.creator_id) room.bet,
      .updateBalance room.opponent_id room.bet,
      .addHistory (some room.creator_id) "dice_mp" room.bet room.bet "Draw",
      .addHistory room.opponent_id "dice_mp" room.bet room.bet "Draw",
      .deleteRoom room.room_id])
  else
    let winner_id := res.winner_id
    let loser_id : Option Int :=
      if winner_id = some room.creator_id then room.opponent_id
      else some room.creator_id
    let full_prize := room.bet * 2
    let fee_amount := full_prize * (fee / 100)
    let final_prize := full_prize - fee_amount
    let db1 := (apply_credit s.db winner_id final_prize).2
    let del := RoomManager.delete_room s.rooms room.room_id
    ({ s with db := db1, rooms := del.2 },
     [.updateBalance winner_id final_prize,
      .addHistory winner_id "dice_mp" room.bet final_prize "Win",
      .addHistory loser_id "dice_mp" room.bet 0 "Loss",
      .deleteRoom room.room_id])

/-- Settlement part of `show_coinflip_result`: identical money flow to the
dice settlement, with `"coinflip_mp"` history entries. -/
def show_coinflip_result (s : BotState) (fee : ℚ) (room : Room)
    (res : CoinResult) : BotState × List Eff :=
  if res.is_draw then
    let db1 := (apply_credit s.db (some room.creator_id) room.bet).2
    let db2 := (apply_credit db1 room.opponent_id room.bet).2
    let del := RoomManager.delete_room s.rooms room.room_id
    ({ s with db := db2, rooms := del.2 },
     [.updateBalance (some room.creator_id) room.bet,
      .updateBalance room.opponent_id room.bet,
      .addHistory (some room.creator_id) "coinflip_mp" room.bet room.bet "Draw",
      .addHistory room.opponent_id "coinflip_mp" room.bet room.bet "Draw",
      .deleteRoom room.room_id])
  else
    let winner_id := res.winner_id
    let loser_id : Option Int :=
      if winner_id = some room.creator_id then room.opponent_id
      else some room.creator_id
    let full_prize := room.bet * 2
    let fee_amount := full_prize * (fee / 100)
    let final_prize := full_prize - fee_amount
    let db1 := (apply_credit s.db winner_id final_prize).2
    let del := RoomManager.delete_room s.rooms room.room_id
    ({ s with db := db1, rooms := del.2 },
     [.updateBalance winner_id final_prize,
      .addHistory winner_id "coinflip_mp" room.bet final_prize "Win",
      .addHistory loser_id "coinflip_mp" room.bet 0 "Loss",
      .deleteRoom room.room_id])

/-- Handler `coinflip_choice` (callback `coin_choice_{room_id}_{choice}`),
with the coin flip injected.  The source guards only on room existence and
on the caller being the creator; it then stores the choice unconditionally
and calls `room.play()`.  When `play` reports an error dict,
`show_coinflip_result` raises `KeyError` on `result["result"]` before any
balance update or deletion, so only the in-place room mutations persist. -/
def coinflip_choice (s : BotState) (fee : ℚ) (user : Int)
    (room_id choice flip : String) : BotState × List Eff :=
  match RoomManager.get_room s.rooms room_id with
  | none => (s, [])
  | some room =>
      if user ≠ room.creator_id then (s, [])
      else
        let room1 := CoinflipGame.set_creator_choice room choice
        let m1 : RoomManager :=
          { s.rooms with active_rooms := aset s.rooms.active_rooms room_id room1 }
        match CoinflipGame.play room1 flip with
        | (.error _, room2) =>
            ({ s with rooms :=
                { m1 with active_rooms := aset m1.active_rooms room_id room2 } },
             [])
        | (.ok res, room2) =>
            let m2 : RoomManager :=
              { m1 with active_rooms := aset m1.active_rooms room_id room2 }
            show_coinflip_result { s with rooms := m2 } fee room2 res

/-- Handler `request_rematch` (callback `rematch_{type}_{bet}_{p1}_{p2}`),
up to the room being re-created and joined on acceptance (the subsequent
`start_multiplayer_game` call runs the normal play path).  Source order:
balance check, pair-key lookup, then accept / idempotent no-op / store. -/
def request_rematch (s : BotState) (user p1 p2 : Int) (game_type : GameType)
    (bet : ℚ) : BotState × List Eff :=
  let opponent_id := if user = p1 then p2 else p1
  let balance := Database.get_balance s.db user
  if balance < bet then (s, [.getBalance user])
  else
    let key : PairKey := ⟨min p1 p2, max p1 p2, game_type, bet⟩
    match alookup s.rematch_requests key with
    | some existing =>
        if existing.requester_id ≠ user then
          let rr := aremove s.rematch_requests key
          let cr := RoomManager.create_room s.rooms existing.requester_id game_type bet
          let jn := RoomManager.join_room cr.2 cr.1.room_id user
          ({ s with rooms := jn.2, rematch_requests := rr },
           [.getBalance user,
            .createRoom existing.requester_id game_type bet cr.1.room_id,
            .joinRoom cr.1.room_id user])
        else (s, [.getBalance user])
    | none =>
        let req : RematchReq := ⟨user, opponent_id, game_type, bet⟩
        ({ s with rematch_requests := aset s.rematch_requests key req },
         [.getBalance user])

/-! ## Claims -/

/-- C10: `Database.update_balance` on an absent user returns `0.0` and
changes nothing; on a present user it unconditionally returns and stores
`oldBalance + delta` (other users untouched) and never reports failure, so
a debit larger than the balance succeeds and stores a negative balance. -/
theorem update_balance_store_contract (db : Db) (u : Int) (d : ℚ) :
    (alookup db u = none → Database.update_balance db u d = (0, db))
    ∧ (∀ b, alookup db u = some b →
        (Database.update_balance db u d).1 = b + d
        ∧ alookup (Database.update_balance db u d).2 u = some (b + d)
        ∧ ∀ v, v ≠ u → alookup (Database.update_balance db u d).2 v = alookup db v) := by
  constructor
  · intro h
    simp [Database.update_balance, h]
  · intro b hb
    refine ⟨?_, ?_, ?_⟩
    · simp [Database.update_balance, hb]
    · simp [Database.update_balance, hb, alookup_aset_self]
    · intro v hv
      simp [Database.update_balance, hb, alookup_aset_ne _ _ _ _ hv]

/-- Witness for C10: debiting 10 from a stored balance of 5 succeeds and
stores -5; updating the absent user 7 returns 0 and changes nothing. -/
theorem update_balance_store_contract_witness :
    (Database.update_balance [(1, 5)] 1 (-10)).1 = -5
    ∧ alookup (Database.update_balance [(1, 5)] 1 (-10)).2 1 = some (-5)
    ∧ Database.update_balance [(1, 5)] 7 3 = (0, [(1, 5)]) := by
  have h1 := (update_balance_store_contract [(1, 5)] 1 (-10)).2 5 (by decide)
  have h7 := (update_balance_store_contract [(1, 5)] 7 3).1 (by decide)
  refine ⟨?_, ?_, h7⟩
  · rw [h1.1]; norm_num
  · rw [h1.2.1]; norm_num

/-- C6: dice resolution with creator roll `a` and opponent roll `b`, both in
`[1, 6]`: `a > b` ⇒ the creator wins, `b > a` ⇒ the opponent wins,
`a = b` ⇒ no winner (draw). -/
theorem dice_resolution (r : Room) (o : Int) (a b : Nat)
    (hst : r.status = Status.playing) (hop : r.opponent_id = some o)
    (ha1 : 1 ≤ a) (ha6 : a ≤ 6) (hb1 : 1 ≤ b) (hb6 : b ≤ 6) :
    ∃ res, (DiceGame.play r a b).1 = Except.ok res
      ∧ (a > b → res.winner_id = some r.creator_id)
      ∧ (b > a → res.winner_id = some o)
      ∧ (a = b → res.winner_id = none) := by
  rcases Nat.lt_trichotomy a b with h | h | h
  · refine ⟨⟨a, b, some o, false⟩, ?_, ?_, ?_, ?_⟩
    · simp [DiceGame.play, hst, h, Nat.lt_asymm h, hop]
    · intro hab; omega
    · intro _; rfl
    · intro hab; omega
  · subst h
    refine ⟨⟨a, a, none, true⟩, ?_, ?_, ?_, ?_⟩
    · simp [DiceGame.play, hst]
    · intro hab; omega
    · intro hab; omega
    · intro _; rfl
  · refine ⟨⟨a, b, some r.creator_id, false⟩, ?_, ?_, ?_, ?_⟩
    · simp [DiceGame.play, hst, h, Nat.lt_asymm h]
    · intro _; rfl
    · intro hab; omega
    · intro hab; omega

/-- Witness for C6: a playing room, rolls (6, 3) ⇒ creator wins. -/
theorem dice_resolution_witness :
    ∃ res,
      (DiceGame.play
        ⟨"ROOM1001", 1, 10, GameType.dice, some 2, Status.playing,
         none, none, none, none⟩ 6 3).1 = Except.ok res
      ∧ res.winner_id = some 1 := by
  obtain ⟨res, hok, hcw, _, _⟩ :=
    dice_resolution
      ⟨"ROOM1001", 1, 10, GameType.dice, some 2, Status.playing,
       none, none, none, none⟩ 2 6 3 rfl rfl
      (by decide) (by decide) (by decide) (by decide)
  exact ⟨res, hok, hcw (by decide)⟩

/-- C5: a CoinPick room in `playing` state whose creator choice is
`"heads"` or `"tails"` always resolves with a non-null winner: the
"no winner" branch is unreachable and a draw is impossible. -/
theorem coinpick_no_draw (r : Room) (o : Int) (c flip : String)
    (hst : r.status = Status.playing) (hop : r.opponent_id = some o)
    (hch : r.creator_choice = some c)
    (hcv : c = "heads" ∨ c = "tails")
    (hfv : flip = "heads" ∨ flip = "tails") :
    ∃ res, (CoinflipGame.play r flip).1 = Except.ok res
      ∧ res.winner_id ≠ none := by
  rcases hcv with hc1 | hc1 <;> rcases hfv with hf1 | hf1 <;> subst hc1 <;> subst hf1
  · exact ⟨⟨"heads", "heads", "tails", some r.creator_id, false⟩,
      by simp [CoinflipGame.play, CoinflipGame.get_opponent_choice, hst, hch], by simp⟩
  · exact ⟨⟨"tails", "heads", "tails", some o, false⟩,
      by simp [CoinflipGame.play, CoinflipGame.get_opponent_choice, hst, hch, hop], by simp⟩
  · exact ⟨⟨"heads", "tails", "heads", some o, false⟩,
      by simp [CoinflipGame.play, CoinflipGame.get_opponent_choice, hst, hch, hop], by simp⟩
  · exact ⟨⟨"tails", "tails", "heads", some r.creator_id, false⟩,
      by simp [CoinflipGame.play, CoinflipGame.get_opponent_choice, hst, hch], by simp⟩

/-- Witness for C5: creator picked heads, flip lands tails ⇒ the opponent
wins, not a draw. -/
theorem coinpick_no_draw_witness :
    ∃ res,
      (CoinflipGame.play
        ⟨"ROOM1002", 1, 20, GameType.coinflip, some 2, Status.playing,
         none, none, none, some "heads"⟩ "tails").1 = Except.ok res
      ∧ res.winner_id ≠ none := by
  exact coinpick_no_draw
    ⟨"ROOM1002", 1, 20, GameType.coinflip, some 2, Status.playing,
     none, none, none, some "heads"⟩ 2 "heads" "tails"
    rfl rfl rfl (Or.inl rfl) (Or.inr rfl)

/-- C4: `join` on a non-waiting room returns `false` and mutates nothing;
`play` on a non-playing room returns the error result (not a silent no-op)
and mutates nothing; and a successful `play` leaves the room `finished`, so
a second `play` on the same room fails and cannot settle twice. -/
theorem state_conflict_guards :
    (∀ (r : Room) (opp : Int), r.status ≠ Status.waiting →
        Room.join r opp = (false, r))
    ∧ (∀ (r : Room) (c o : Nat), r.status ≠ Status.playing →
        DiceGame.play r c o = (Except.error "Game is not ready", r))
    ∧ (∀ (r : Room) (flip : String), r.status ≠ Status.playing →
        CoinflipGame.play r flip = (Except.error "Game is not ready", r))
    ∧ (∀ (r r' : Room) (c o c2 o2 : Nat) (res : DiceResult),
        DiceGame.play r c o = (Except.ok res, r') →
        DiceGame.play r' c2 o2 = (Except.error "Game is not ready", r'))
    ∧ (∀ (r r' : Room) (flip flip2 : String) (res : CoinResult),
        CoinflipGame.play r flip = (Except.ok res, r') →
        CoinflipGame.play r' flip2 = (Except.error "Game is not ready", r')) := by
  refine ⟨?_, ?_, ?_, ?_, ?_⟩
  · intro r opp h
    simp [Room.join, h]
  · intro r c o h
    simp [DiceGame.play, h]
  · intro r flip h
    simp [CoinflipGame.play, h]
  · intro r r' c o c2 o2 res hplay
    by_cases hst : r.status = Status.playing
    · simp [DiceGame.play, hst] at hplay
      obtain ⟨-, h2⟩ := hplay
      subst h2
      simp [DiceGame.play]
    · simp [DiceGame.play, hst] at hplay
  · intro r r' flip flip2 res hplay
    by_cases hst : r.status = Status.playing
    · by_cases hch : r.creator_choice = none ∨ r.creator_choice = some ""
      · simp [CoinflipGame.play, hst, hch] at hplay
      · simp [CoinflipGame.play, hst, hch] at hplay
        obtain ⟨-, h2⟩ := hplay
        subst h2
        simp [CoinflipGame.play]
    · simp [CoinflipGame.play, hst] at hplay

/-- Witness for C4: joining and playing a finished room fail without
mutation, and a played dice room cannot be played again. -/
theorem state_conflict_guards_witness :
    Room.join
      ⟨"ROOM1003", 1, 10, GameType.dice, some 2, Status.finished,
       none, none, none, none⟩ 3
      = (false,
         ⟨"ROOM1003", 1, 10, GameType.dice, some 2, Status.finished,
          none, none, none, none⟩)
    ∧ DiceGame.play
        ⟨"ROOM1003", 1, 10, GameType.dice, some 2, Status.finished,
         none, none, none, none⟩ 4 2
      = (Except.error "Game is not ready",
         ⟨"ROOM1003", 1, 10, GameType.dice, some 2, Status.finished,
          none, none, none, none⟩)
    ∧ DiceGame.play
        (DiceGame.play
          ⟨"ROOM1004", 1, 10, GameType.dice, some 2, Status.playing,
           none, none, none, none⟩ 6 3).2 5 5
      = (Except.error "Game is not ready",
         (DiceGame.play
           ⟨"ROOM1004", 1, 10, GameType.dice, some 2, Status.playing,
            none, none, none, none⟩ 6 3).2) := by
  refine ⟨?_, ?_, ?_⟩
  · exact state_conflict_guards.1 _ 3 (by decide)
  · exact state_conflict_guards.2.1 _ 4 2 (by decide)
  · exact state_conflict_guards.2.2.2.1
      ⟨"ROOM1004", 1, 10, GameType.dice, some 2, Status.playing,
       none, none, none, none⟩ _ 6 3 5 5
      ⟨6, 3, some 1, false⟩ rfl

/-- C7 counterexample: the claim also asserts that a self-join invoked
directly on the room's own `join` operation fails, but `MultiplayerGame.join`
has no self-join check: on a waiting room the creator joins themselves,
the call returns `true` and the room is mutated to `playing` with
`opponent_id = creator_id`. -/
theorem room_join_self_join_succeeds :
    (Room.join
      ⟨"ROOM1001", 1, 10, GameType.dice, none, Status.waiting,
       none, none, none, none⟩ 1).1 = true
    ∧ (Room.join
        ⟨"ROOM1001", 1, 10, GameType.dice, none, Status.waiting,
         none, none, none, none⟩ 1).2.opponent_id = some 1
    ∧ (Room.join
        ⟨"ROOM1001", 1, 10, GameType.dice, none, Status.waiting,
         none, none, none, none⟩ 1).2.status = Status.playing := by
  decide

/-- C7 (amended): a self-join through the registry (`RoomManager.join_room`
with the room's own creator as opponent) always returns `false` and leaves
the registry — in particular the room — unchanged; the room-level
`MultiplayerGame.join` itself performs no self-join check. -/
theorem registry_self_join_rejected (m : RoomManager) (room_id : String)
    (room : Room) (h : RoomManager.get_room m room_id = some room) :
    RoomManager.join_room m room_id room.creator_id = (false, m) := by
  simp [RoomManager.join_room, h]

/-- Witness for C7 (amended): self-join on a concrete waiting room through
the registry is rejected with no state change. -/
theorem registry_self_join_rejected_witness :
    RoomManager.join_room
      ⟨[("ROOM1001",
         ⟨"ROOM1001", 1, 10, GameType.dice, none, Status.waiting,
          none, none, none, none⟩)], 1001⟩ "ROOM1001" 1
      = (false,
         ⟨[("ROOM1001",
            ⟨"ROOM1001", 1, 10, GameType.dice, none, Status.waiting,
             none, none, none, none⟩)], 1001⟩) := by
  exact registry_self_join_rejected _ "ROOM1001"
    ⟨"ROOM1001", 1, 10, GameType.dice, none, Status.waiting,
     none, none, none, none⟩ (by decide)

/-- C1: settlement conservation.  For a finished non-draw match with stake
`s` and fee `f` percent, the settlement applies exactly one balance credit,
`2*s*(1 - f/100)`, to the winner and none to the loser; for a draw each
party is credited exactly `s` with no fee — for both the dice and the
coinflip settlement. -/
theorem settlement_conservation (s : BotState) (fee : ℚ) (room : Room)
    (resD : DiceResult) (resC : CoinResult) (w : Int) :
    (resD.is_draw = false → resD.winner_id = some w →
      balance_updates (show_dice_result s fee room resD).2
        = [(some w, 2 * room.bet * (1 - fee / 100))])
    ∧ (resD.is_draw = true →
      balance_updates (show_dice_result s fee room resD).2
        = [(some room.creator_id, room.bet), (room.opponent_id, room.bet)])
    ∧ (resC.is_draw = false → resC.winner_id = some w →
      balance_updates (show_coinflip_result s fee room resC).2
        = [(some w, 2 * room.bet * (1 - fee / 100))])
    ∧ (resC.is_draw = true →
      balance_updates (show_coinflip_result s fee room resC).2
        = [(some room.creator_id, room.bet), (room.opponent_id, room.bet)]) := by
  refine ⟨?_, ?_, ?_, ?_⟩
  · intro hnd hw
    simp [show_dice_result, hnd, hw, balance_updates]
    ring
  · intro hd
    simp [show_dice_result, hd, balance_updates]
  · intro hnd hw
    simp [show_coinflip_result, hnd, hw, balance_updates]
    ring
  · intro hd
    simp [show_coinflip_result, hd, balance_updates]

/-- Witness for C1: stake 10, fee 5% ⇒ the winner of a non-draw dice match
is credited exactly 19, and a drawn coinflip match refunds both stakes. -/
theorem settlement_conservation_witness :
    balance_updates
      (show_dice_result ⟨[(1, 100), (2, 100)], ⟨[], 1000⟩, []⟩ 5
        ⟨"ROOM1001", 1, 10, GameType.dice, some 2, Status.finished,
         none, none, some 1, none⟩
        ⟨6, 3, some 1, false⟩).2
      = [(some 1, 2 * 10 * (1 - 5 / 100))]
    ∧ balance_updates
        (show_coinflip_result ⟨[(1, 100), (2, 100)], ⟨[], 1000⟩, []⟩ 5
          ⟨"ROOM1002", 1, 10, GameType.coinflip, some 2, Status.finished,
           none, none, none, some "heads"⟩
          ⟨"heads", "heads", "tails", none, true⟩).2
        = [(some 1, 10), (some 2, 10)] := by
  constructor
  · exact (settlement_conservation ⟨[(1, 100), (2, 100)], ⟨[], 1000⟩, []⟩ 5
      ⟨"ROOM1001", 1, 10, GameType.dice, some 2, Status.finished,
       none, none, some 1, none⟩
      ⟨6, 3, some 1, false⟩
      ⟨"heads", "heads", "tails", none, true⟩ 1).1 rfl rfl
  · exact (settlement_conservation ⟨[(1, 100), (2, 100)], ⟨[], 1000⟩, []⟩ 5
      ⟨"ROOM1002", 1, 10, GameType.coinflip, some 2, Status.finished,
       none, none, none, some "heads"⟩
      ⟨6, 3, some 1, false⟩
      ⟨"heads", "heads", "tails", none, true⟩ 1).2.2.2 rfl

/-- C3 counterexample: the claim requires the stake debit to precede room
creation, but `create_room_with_bet` calls `room_manager.create_room` first
and debits the stake afterwards: on a concrete state with sufficient funds
the emitted effect trace has the `createRoom` event before any
`updateBalance` event. -/
theorem room_created_before_debit :
    debit_precedes_transitions
      ((create_room_with_bet ⟨[(1, 100)], ⟨[], 1000⟩, []⟩ 1 GameType.dice
          10 1 1000).2)
      false = false := by
  rfl

/-- C3 (amended): both stake-reserving operations first validate funds —
on insufficient funds nothing happens (no room, no join, no debit) — and on
success they apply the room creation (respectively the join) FIRST and the
stake debit immediately AFTER it; the store-level debit is unconditional
and cannot fail. -/
theorem reserve_sequences (s : BotState) (user : Int) (game_type : GameType)
    (bet minBet maxBet : ℚ) (room_id : String) (room : Room) :
    (¬(bet < minBet ∨ maxBet < bet) →
      Database.get_balance s.db user < bet →
      create_room_with_bet s user game_type bet minBet maxBet
        = (s, [Eff.getBalance user]))
    ∧ (¬(bet < minBet ∨ maxBet < bet) →
      bet ≤ Database.get_balance s.db user →
      (create_room_with_bet s user game_type bet minBet maxBet).2
        = [Eff.getBalance user,
           Eff.createRoom user game_type bet
             ("ROOM" ++ toString (s.rooms.room_counter + 1)),
           Eff.updateBalance (some user) (-bet)])
    ∧ (RoomManager.get_room s.rooms room_id = some room →
      room.status = Status.waiting →
      Database.get_balance s.db user < room.bet →
      join_room_handler s user room_id = (s, [Eff.getBalance user]))
    ∧ (RoomManager.get_room s.rooms room_id = some room →
      room.status = Status.waiting →
      room.creator_id ≠ user →
      room.bet ≤ Database.get_balance s.db user →
      (join_room_handler s user room_id).2
        = [Eff.getBalance user,
           Eff.joinRoom room_id user,
           Eff.updateBalance (some user) (-room.bet)]) := by
  refine ⟨?_, ?_, ?_, ?_⟩
  · intro hbounds hbal
    simp [create_room_with_bet, hbounds, hbal]
  · intro hbounds hbal
    simp [create_room_with_bet, RoomManager.create_room, hbounds, not_lt.mpr hbal]
  · intro hroom hst hbal
    simp [join_room_handler, hroom, hst, hbal]
  · intro hroom hst hself hbal
    simp [join_room_handler, RoomManager.join_room, Room.join, hroom, hst,
      hself, not_lt.mpr hbal]

/-- Witness for C3 (amended): concrete create with sufficient funds emits
create-then-debit; an underfunded join attempt changes nothing. -/
theorem reserve_sequences_witness :
    (create_room_with_bet ⟨[(1, 100)], ⟨[], 1000⟩, []⟩ 1 GameType.dice
        10 1 1000).2
      = [Eff.getBalance 1,
         Eff.createRoom 1 GameType.dice 10 "ROOM1001",
         Eff.updateBalance (some 1) (-10)]
    ∧ join_room_handler
        ⟨[(1, 100), (2, 3)],
         ⟨[("ROOM1001",
            ⟨"ROOM1001", 1, 10, GameType.dice, none, Status.waiting,
             none, none, none, none⟩)], 1001⟩, []⟩ 2 "ROOM1001"
      = (⟨[(1, 100), (2, 3)],
          ⟨[("ROOM1001",
             ⟨"ROOM1001", 1, 10, GameType.dice, none, Status.waiting,
              none, none, none, none⟩)], 1001⟩, []⟩,
         [Eff.getBalance 2]) := by
  constructor
  · have h := (reserve_sequences ⟨[(1, 100)], ⟨[], 1000⟩, []⟩ 1 GameType.dice
      10 1 1000 "ROOM1001"
      ⟨"ROOM1001", 1, 10, GameType.dice, none, Status.waiting,
       none, none, none, none⟩).2.1 (by norm_num) (by decide)
    simpa using h
  · exact (reserve_sequences
      ⟨[(1, 100), (2, 3)],
       ⟨[("ROOM1001",
          ⟨"ROOM1001", 1, 10, GameType.dice, none, Status.waiting,
           none, none, none, none⟩)], 1001⟩, []⟩ 2 GameType.dice
      10 1 1000 "ROOM1001"
      ⟨"ROOM1001", 1, 10, GameType.dice, none, Status.waiting,
       none, none, none, none⟩).2.2.1 (by decide) rfl (by decide)

/-- C8 counterexample: the claim says a set-choice attempt on a room whose
status is not `playing` is rejected and leaves `creator_choice` unchanged,
but the `coin_choice` handler checks only room existence and the caller
being the creator: on a concrete `waiting` coinflip room the creator's
choice is stored (status remains `waiting`; `play` then reports its error
before any settlement). -/
theorem choice_set_on_waiting_room :
    RoomManager.get_room
      (coinflip_choice
        ⟨[(1, 100)],
         ⟨[("ROOM1001",
            ⟨"ROOM1001", 1, 10, GameType.coinflip, none, Status.waiting,
             none, none, none, none⟩)], 1001⟩, []⟩
        5 1 "ROOM1001" "heads" "tails").1.rooms "ROOM1001"
      = some ⟨"ROOM1001", 1, 10, GameType.coinflip, none, Status.waiting,
              none, none, none, some "heads"⟩ := by
  rfl

/-- C8 (amended): the `coin_choice` handler guards only on room existence
and caller identity: a missing room or a non-creator caller is rejected
with no mutation; a call by the creator stores the lowercased choice
unconditionally — in particular on a room that is not `playing` the choice
is still written (and the room keeps its status, `play` having failed). -/
theorem coinflip_choice_guards (s : BotState) (fee : ℚ) (user : Int)
    (room_id choice flip : String) :
    (RoomManager.get_room s.rooms room_id = none →
      coinflip_choice s fee user room_id choice flip = (s, []))
    ∧ (∀ room, RoomManager.get_room s.rooms room_id = some room →
        user ≠ room.creator_id →
        coinflip_choice s fee user room_id choice flip = (s, []))
    ∧ (∀ room, RoomManager.get_room s.rooms room_id = some room →
        user = room.creator_id →
        room.status ≠ Status.playing →
        RoomManager.get_room
          (coinflip_choice s fee user room_id choice flip).1.rooms room_id
          = some (CoinflipGame.set_creator_choice room choice)) := by
  refine ⟨?_, ?_, ?_⟩
  · intro h
    simp [coinflip_choice, h]
  · intro room hroom huser
    simp [coinflip_choice, hroom, huser]
  · intro room hroom huser hst
    have hroom2 : alookup s.rooms.active_rooms room_id = some room := hroom
    have hplay : CoinflipGame.play (CoinflipGame.set_creator_choice room choice) flip
        = (Except.error "Game is not ready", CoinflipGame.set_creator_choice room choice) := by
      simp [CoinflipGame.play, CoinflipGame.set_creator_choice, hst]
    simp [coinflip_choice, RoomManager.get_room, hroom2, huser, hplay,
      alookup_aset_self]

/-- Witness for C8 (amended): a non-creator caller is rejected on a concrete
playing room; the creator's call on a waiting room stores the choice. -/
theorem coinflip_choice_guards_witness :
    coinflip_choice
      ⟨[(1, 100)],
       ⟨[("ROOM1002",
          ⟨"ROOM1002", 1, 10, GameType.coinflip, some 2, Status.playing,
           none, none, none, none⟩)], 1001⟩, []⟩
      5 2 "ROOM1002" "heads" "tails"
      = (⟨[(1, 100)],
          ⟨[("ROOM1002",
             ⟨"ROOM1002", 1, 10, GameType.coinflip, some 2, Status.playing,
              none, none, none, none⟩)], 1001⟩, []⟩, [])
    ∧ RoomManager.get_room
        (coinflip_choice
          ⟨[(1, 100)],
           ⟨[("ROOM1003",
              ⟨"ROOM1003", 1, 10, GameType.coinflip, none, Status.waiting,
               none, none, none, none⟩)], 1001⟩, []⟩
          5 1 "ROOM1003" "TAILS" "heads").1.rooms "ROOM1003"
        = some (CoinflipGame.set_creator_choice
            ⟨"ROOM1003", 1, 10, GameType.coinflip, none, Status.waiting,
             none, none, none, none⟩ "TAILS") := by
  constructor
  · exact (coinflip_choice_guards
      ⟨[(1, 100)],
       ⟨[("ROOM1002",
          ⟨"ROOM1002", 1, 10, GameType.coinflip, some 2, Status.playing,
           none, none, none, none⟩)], 1001⟩, []⟩
      5 2 "ROOM1002" "heads" "tails").2.1
      ⟨"ROOM1002", 1, 10, GameType.coinflip, some 2, Status.playing,
       none, none, none, none⟩ rfl (by decide)
  · exact (coinflip_choice_guards
      ⟨[(1, 100)],
       ⟨[("ROOM1003",
          ⟨"ROOM1003", 1, 10, GameType.coinflip, none, Status.waiting,
           none, none, none, none⟩)], 1001⟩, []⟩
      5 1 "ROOM1003" "TAILS" "heads").2.2
      ⟨"ROOM1003", 1, 10, GameType.coinflip, none, Status.waiting,
       none, none, none, none⟩ rfl rfl (by decide)

/-- C9: rematch requests are idempotent per requester.  Starting with no
outstanding request for the pairing key, a first `request_rematch` leaves
exactly one outstanding request for that key, and a second call by the same
requester reports "already waiting" and changes no state. -/
theorem rematch_request_idempotent (s : BotState) (user p1 p2 : Int)
    (game_type : GameType) (bet : ℚ)
    (hno : alookup s.rematch_requests ⟨min p1 p2, max p1 p2, game_type, bet⟩ = none)
    (hbal : bet ≤ Database.get_balance s.db user) :
    ((request_rematch s user p1 p2 game_type bet).1.rematch_requests.countP
        (fun e => decide (e.1 = (⟨min p1 p2, max p1 p2, game_type, bet⟩ : PairKey))) = 1)
    ∧ request_rematch (request_rematch s user p1 p2 game_type bet).1
        user p1 p2 game_type bet
      = ((request_rematch s user p1 p2 game_type bet).1, [Eff.getBalance user]) := by
  have h1 : request_rematch s user p1 p2 game_type bet = ({ s with rematch_requests := aset s.rematch_requests ⟨min p1 p2, max p1 p2, game_type, bet⟩ ⟨user, if user = p1 then p2 else p1, game_type, bet⟩ }, [Eff.getBalance user]) := by
    simp [request_rematch, hno, not_lt.mpr hbal]
  constructor
  · rw [h1]
    simp only
    rw [aset_of_absent _ _ _ hno]
    rw [List.countP_append, countP_eq_zero_of_alookup_none _ _ hno]
    simp
  · rw [h1]
    simp [request_rematch, not_lt.mpr hbal, alookup_aset_self]

/-- Witness for C9: a concrete double request by player 1 for the (1,2)
pairing leaves exactly one entry and the second call is a no-op. -/
theorem rematch_request_idempotent_witness :
    ((request_rematch ⟨[(1, 100), (2, 100)], ⟨[], 1000⟩, []⟩
        1 1 2 GameType.dice 10).1.rematch_requests.countP
      (fun e => decide (e.1 = (⟨min 1 2, max 1 2, GameType.dice, 10⟩ : PairKey))) = 1)
    ∧ request_rematch
        (request_rematch ⟨[(1, 100), (2, 100)], ⟨[], 1000⟩, []⟩
          1 1 2 GameType.dice 10).1 1 1 2 GameType.dice 10
      = ((request_rematch ⟨[(1, 100), (2, 100)], ⟨[], 1000⟩, []⟩
          1 1 2 GameType.dice 10).1, [Eff.getBalance 1]) := by
  exact rematch_request_idempotent ⟨[(1, 100), (2, 100)], ⟨[], 1000⟩, []⟩
    1 1 2 GameType.dice 10 rfl (by decide)

/-- C2: rematch pairing.  `request(A, …)` followed by `request(B, …)` for the
same pairing key (no intervening requests, both balances sufficient, fresh
room id) produces exactly one new room — creator `A` (the original
requester), opponent `B`, already `playing` — deletes the outstanding
pairing entry, leaves all other rooms untouched and debits neither balance. -/
theorem rematch_pairing (s : BotState) (A B : Int) (game_type : GameType)
    (bet : ℚ) (hAB : A ≠ B)
    (hno : alookup s.rematch_requests ⟨min A B, max A B, game_type, bet⟩ = none)
    (hbA : bet ≤ Database.get_balance s.db A)
    (hbB : bet ≤ Database.get_balance s.db B)
    (hfresh : RoomManager.get_room s.rooms
      ("ROOM" ++ toString (s.rooms.room_counter + 1)) = none) :
    RoomManager.get_room
        (request_rematch (request_rematch s A A B game_type bet).1
          B B A game_type bet).1.rooms
        ("ROOM" ++ toString (s.rooms.room_counter + 1))
      = some ⟨"ROOM" ++ toString (s.rooms.room_counter + 1), A, bet, game_type,
              some B, Status.playing, none, none, none, none⟩
    ∧ (∀ rid, rid ≠ "ROOM" ++ toString (s.rooms.room_counter + 1) →
        RoomManager.get_room
            (request_rematch (request_rematch s A A B game_type bet).1
              B B A game_type bet).1.rooms rid
          = RoomManager.get_room s.rooms rid)
    ∧ (request_rematch (request_rematch s A A B game_type bet).1
          B B A game_type bet).1.rooms.active_rooms.length
        = s.rooms.active_rooms.length + 1
    ∧ alookup
        (request_rematch (request_rematch s A A B game_type bet).1
          B B A game_type bet).1.rematch_requests
        ⟨min A B, max A B, game_type, bet⟩ = none
    ∧ (request_rematch (request_rematch s A A B game_type bet).1
        B B A game_type bet).1.db = s.db := by
  have hfresh2 : alookup s.rooms.active_rooms
      ("ROOM" ++ toString (s.rooms.room_counter + 1)) = none := hfresh
  have h1 : request_rematch s A A B game_type bet = ({ s with rematch_requests := aset s.rematch_requests ⟨min A B, max A B, game_type, bet⟩ ⟨A, B, game_type, bet⟩ }, [Eff.getBalance A]) := by
    simp [request_rematch, hno, not_lt.mpr hbA]
  have hkey : (⟨min B A, max B A, game_type, bet⟩ : PairKey)
      = ⟨min A B, max A B, game_type, bet⟩ := by
    rw [min_comm, max_comm]
  have hlook : alookup (aset s.rematch_requests ⟨min A B, max A B, game_type, bet⟩ ⟨A, B, game_type, bet⟩) ⟨min B A, max B A, game_type, bet⟩ = some ⟨A, B, game_type, bet⟩ := by
    rw [hkey]
    exact alookup_aset_self _ _ _
  have h2 : request_rematch (request_rematch s A A B game_type bet).1 B B A game_type bet = ({ s with rooms := ⟨aset (aset s.rooms.active_rooms ("ROOM" ++ toString (s.rooms.room_counter + 1)) ⟨"ROOM" ++ toString (s.rooms.room_counter + 1), A, bet, game_type, none, Status.waiting, none, none, none, none⟩) ("ROOM" ++ toString (s.rooms.room_counter + 1)) ⟨"ROOM" ++ toString (s.rooms.room_counter + 1), A, bet, game_type, some B, Status.playing, none, none, none, none⟩, s.rooms.room_counter + 1⟩, rematch_requests := aremove (aset s.rematch_requests ⟨min A B, max A B, game_type, bet⟩ ⟨A, B, game_type, bet⟩) ⟨min B A, max B A, game_type, bet⟩ }, [Eff.getBalance B, Eff.createRoom A game_type bet ("ROOM" ++ toString (s.rooms.room_counter + 1)), Eff.joinRoom ("ROOM" ++ toString (s.rooms.room_counter + 1)) B]) := by
    rw [h1]
    simp [request_rematch, RoomManager.create_room, RoomManager.join_room,
      RoomManager.get_room, Room.join, not_lt.mpr hbB, hlook, hAB,
      alookup_aset_self]
  refine ⟨?_, ?_, ?_, ?_, ?_⟩
  · rw [h2]
    simp [RoomManager.get_room, alookup_aset_self]
  · intro rid hne
    rw [h2]
    simp only [RoomManager.get_room]
    rw [alookup_aset_ne _ _ _ _ hne, alookup_aset_ne _ _ _ _ hne]
  · rw [h2]
    simp only
    rw [aset_length_of_present _ _ _ _ (alookup_aset_self _ _ _),
      aset_of_absent _ _ _ hfresh2]
    simp
  · rw [h2]
    simp only
    rw [hkey]
    exact alookup_aremove_self _ _
  · rw [h2]

/-- Witness for C2: players 1 and 2, dice, stake 10, starting from an empty
registry — player 1 requests, player 2 accepts: one new playing room
`ROOM1001` with creator 1 and opponent 2, pairing entry gone, balances
untouched. -/
theorem rematch_pairing_witness :
    RoomManager.get_room
        (request_rematch
          (request_rematch ⟨[(1, 100), (2, 100)], ⟨[], 1000⟩, []⟩
            1 1 2 GameType.dice 10).1
          2 2 1 GameType.dice 10).1.rooms "ROOM1001"
      = some ⟨"ROOM1001", 1, 10, GameType.dice, some 2, Status.playing,
              none, none, none, none⟩
    ∧ alookup
        (request_rematch
          (request_rematch ⟨[(1, 100), (2, 100)], ⟨[], 1000⟩, []⟩
            1 1 2 GameType.dice 10).1
          2 2 1 GameType.dice 10).1.rematch_requests
        ⟨min 1 2, max 1 2, GameType.dice, 10⟩ = none
    ∧ (request_rematch
        (request_rematch ⟨[(1, 100), (2, 100)], ⟨[], 1000⟩, []⟩
          1 1 2 GameType.dice 10).1
        2 2 1 GameType.dice 10).1.db = [(1, 100), (2, 100)] := by
  have h := rematch_pairing ⟨[(1, 100), (2, 100)], ⟨[], 1000⟩, []⟩
    1 2 GameType.dice 10 (by decide) rfl (by decide) (by decide) rfl
  exact ⟨by simpa using h.1, by simpa using h.2.2.2.1, by simpa using h.2.2.2.2⟩
